import Mathlib

/-
Verification of the shw-chatbot relay service.

The repository contains two near-duplicate Express servers:
  src/server.js          (modelled below in namespace SrvA)
  src/unnamed/part_000   (modelled below in namespace SrvB)

Both keep two process-global Maps keyed by session id:
  conversationHistories : sessionId -> array of messages
  requestTimes          : sessionId -> timestamp of last accepted request (ms)

We embed the JavaScript Maps as association lists, the handlers as pure
functions from a server state plus request data (and the outcome of the
single outbound fetch, which is external input) to a response and a new
state, and the periodic cleanup as a fold over the rate-limit entries,
mirroring the for-loop in the source.
-/

/-- A chat message, as stored in the conversation history arrays:
an object with a role field and a content field. -/
structure Message where
  role : String
  content : String
deriving DecidableEq

/-- The mutable process state of either server: the two global Maps
declared near the top of each file (conversationHistories, requestTimes).
JavaScript Maps are embedded as association lists with unique keys. -/
structure ServerState where
  conversationHistories : List (String × List Message)
  requestTimes : List (String × Nat)
deriving DecidableEq

/-- The state at process start: both Maps empty. -/
def emptyState : ServerState := ⟨[], []⟩

/-- Map.get: first value stored under the key, if any. -/
def mapLookup (k : String) : List (String × α) → Option α
  | [] => none
  | (k2, v) :: rest => if k2 = k then some v else mapLookup k rest

/-- Map.set: replace the value at the key in place, or append a new entry. -/
def mapSet (k : String) (v : α) : List (String × α) → List (String × α)
  | [] => [(k, v)]
  | (k2, v2) :: rest =>
      if k2 = k then (k, v) :: rest else (k2, v2) :: mapSet k v rest

/-- Map.delete: remove the entry stored under the key (none if absent). -/
def mapDelete (k : String) (m : List (String × α)) : List (String × α) :=
  m.filter (fun p => p.1 ≠ k)

/-- MIN_REQUEST_INTERVAL, identical in both files. -/
def MIN_REQUEST_INTERVAL : Nat := 1000

/-- JavaScript truthiness of a possibly-absent string: undefined and the
empty string are falsy, every other string is truthy. -/
def jsTruthy : Option String → Bool
  | none => false
  | some s => if s = "" then false else true

/-- The JavaScript idiom (x or d) on a possibly-absent string: the
default is taken when the field is absent or the empty string. -/
def jsOrStr (o : Option String) (d : String) : String :=
  match o with
  | none => d
  | some s => if s = "" then d else s

/-- The in-place trim performed after pushing the user message
(identical line in both files):
if (history.length greater than 21) history.splice(1, history.length - 21).
splice removes (length - 21) elements starting at index 1, keeping
element 0 and the last 20 elements. -/
def trimHistory (h : List Message) : List Message :=
  if 21 < h.length then
    match h with
    | [] => []
    | m :: rest => m :: rest.drop (h.length - 21)
  else h

/-- The fields of the upstream JSON payload that either handler reads:
errorMessage models error.message, topMessage models the top-level
message field, content models choices[0].message.content. A field is
none when the optional-chaining lookup yields undefined. -/
structure ParsedBody where
  errorMessage : Option String
  topMessage : Option String
  content : Option String
deriving DecidableEq

/-- The upstream HTTP response, as observed by the handlers: its status
code, its raw body text, the result of JSON.parse on that text (none
when JSON.parse throws, with parseErrMsg the exception message). -/
structure UpstreamResponse where
  status : Nat
  text : String
  parsed : Option ParsedBody
  parseErrMsg : String
deriving DecidableEq

/-- response.ok per the fetch standard: status in the range 200-299. -/
def UpstreamResponse.ok (u : UpstreamResponse) : Bool :=
  if 200 ≤ u.status ∧ u.status ≤ 299 then true else false

/-- Outcome of the outbound fetch to the completions endpoint: either a
response, or a transport failure whose exception message lands in the
surrounding catch block. -/
inductive FetchOutcome where
  | success (resp : UpstreamResponse)
  | netErr (message : String)
deriving DecidableEq

/-- Outcome of the key-validation fetch in the test-key route: the
validity flag, status and parsed data on success, or the exception
message when the fetch or r.json() throws. -/
inductive KeyFetchOutcome where
  | success (valid : Bool) (status : Nat) (data : String)
  | failure (message : String)
deriving DecidableEq

/-- The JSON bodies either server can send, one constructor per shape. -/
inductive ApiBody where
  | errBody (error : String)
  | chatBody (reply : String) (model : String) (timestamp : String)
  | clearBody (message : String)
  | healthA (status : String) (openrouterConfigured : Bool) (model : String) (apiKey : String)
  | healthB (status : String) (message : String) (model : String) (openrouterConfigured : Bool) (apiKeyRedacted : String)
  | testKeyBody (valid : Bool) (status : Nat) (data : String)
deriving DecidableEq

/-- An HTTP response: status code plus JSON body. -/
structure HttpResponse where
  status : Nat
  body : ApiBody
deriving DecidableEq

/-- The redacted credential shown by both health routes: first 8
characters plus an ellipsis, or the sentinel when the key is unset
or empty (falsy). -/
def redactKey (key : Option String) : String :=
  if jsTruthy key then (key.getD "").take 8 ++ "..." else "Not set"

/-- The conversation-memory update both chat handlers perform on an
accepted request, parameterized by the fixed system message of the
variant: lazily seed the history with the system message if the session
has none, push the user message, then trim to at most 21 entries. -/
def updatedHistory (sys : Message) (st : ServerState) (sessionId msg : String) : List Message :=
  let hist0 :=
    match mapLookup sessionId st.conversationHistories with
    | some h => h
    | none => [sys]
  trimHistory (hist0 ++ [⟨"user", msg⟩])

/-- One iteration of the cleanup for-loop, identical in both files: if
the entry is older than the cutoff, delete the session from both Maps. -/
def reaperStep (cutoff : Nat) (st : ServerState) (e : String × Nat) : ServerState :=
  if e.2 < cutoff then
    ⟨mapDelete e.1 st.conversationHistories, mapDelete e.1 st.requestTimes⟩
  else st

namespace SrvA

/-- MODEL in src/server.js. -/
def MODEL : String := "nvidia/nemotron-nano-9b-v2:free"

/-- SYSTEM_PROMPT in src/server.js (three lines). -/
def SYSTEM_PROMPT : String :=
  "You are a helpful, friendly, and knowledgeable AI assistant. \nYou provide clear, concise, and accurate responses. You\x27re conversational but professional.\nYou can help with a wide variety of topics including general knowledge, coding, writing, analysis, and more."

/-- The fixed system instruction message seeded at index 0. -/
def systemMessage : Message := ⟨"system", SYSTEM_PROMPT⟩

/-- src/server.js lines 48-97: the body of the chat handler after the
rate check has passed. requestTimes is stamped with now; the history is
seeded/pushed/trimmed; then the handler branches on the fetch outcome.
A non-ok upstream status throws (with the message extracted from the
parsed error payload when it parses, else an HTTP-status message), a
parse failure throws, a falsy completion text throws; every throw is
caught and answered with status 500. Only a truthy completion is pushed
as the assistant message. -/
def chatAccepted (st : ServerState) (msg sessionId : String) (now : Nat)
    (fetchResult : FetchOutcome) (nowIso : String) : HttpResponse × ServerState :=
  let hist1 := updatedHistory systemMessage st sessionId msg
  let st2 : ServerState :=
    ⟨mapSet sessionId hist1 st.conversationHistories,
     mapSet sessionId now st.requestTimes⟩
  match fetchResult with
  | FetchOutcome.netErr emsg => (⟨500, ApiBody.errBody emsg⟩, st2)
  | FetchOutcome.success resp =>
    if resp.ok = false then
      let errorMessage :=
        match resp.parsed with
        | none => "HTTP " ++ toString resp.status ++ ": " ++ resp.text
        | some d => jsOrStr d.errorMessage (jsOrStr d.topMessage "Unknown error")
      (⟨500, ApiBody.errBody errorMessage⟩, st2)
    else
      match resp.parsed with
      | none => (⟨500, ApiBody.errBody resp.parseErrMsg⟩, st2)
      | some d =>
        if jsTruthy d.content then
          let reply := d.content.getD ""
          (⟨200, ApiBody.chatBody reply MODEL nowIso⟩,
           ⟨mapSet sessionId (hist1 ++ [⟨"assistant", reply⟩]) st.conversationHistories,
            mapSet sessionId now st.requestTimes⟩)
        else
          (⟨500, ApiBody.errBody "Invalid response from OpenRouter"⟩, st2)

/-- src/server.js lines 39-46: the rate check. elapsed is the time since
the last accepted request for the session (0 when none is stored); below
the minimum interval the request is answered 429 with a wait hint and
nothing is mutated. -/
def chatRateChecked (st : ServerState) (msg sessionId : String) (now : Nat)
    (fetchResult : FetchOutcome) (nowIso : String) : HttpResponse × ServerState :=
  let lastRequest := (mapLookup sessionId st.requestTimes).getD 0
  let elapsed := now - lastRequest
  if elapsed < MIN_REQUEST_INTERVAL then
    let wait := (MIN_REQUEST_INTERVAL - elapsed + 999) / 1000
    (⟨429, ApiBody.errBody ("Please wait " ++ toString wait ++ "s before next message.")⟩, st)
  else
    chatAccepted st msg sessionId now fetchResult nowIso

/-- src/server.js lines 35-98: the chat endpoint. A falsy message field
is answered 400 before anything else happens. -/
def chatHandler (st : ServerState) (message : Option String) (sessionId : String)
    (now : Nat) (fetchResult : FetchOutcome) (nowIso : String) :
    HttpResponse × ServerState :=
  if jsTruthy message = false then
    (⟨400, ApiBody.errBody "Message is required"⟩, st)
  else
    chatRateChecked st (message.getD "") sessionId now fetchResult nowIso

/-- src/server.js lines 101-106: the clear endpoint deletes the session
from both Maps and acknowledges. -/
def clearHandler (st : ServerState) (sessionId : String) : HttpResponse × ServerState :=
  (⟨200, ApiBody.clearBody "Conversation cleared"⟩,
   ⟨mapDelete sessionId st.conversationHistories,
    mapDelete sessionId st.requestTimes⟩)

/-- src/server.js lines 108-115: the health endpoint. -/
def healthHandler (apiKeyCfg : Option String) : HttpResponse :=
  ⟨200, ApiBody.healthA "ok" (jsTruthy apiKeyCfg) MODEL (redactKey apiKeyCfg)⟩

/-- src/server.js lines 117-127: the test-key endpoint. -/
def testKeyHandler : KeyFetchOutcome → HttpResponse
  | KeyFetchOutcome.success valid status data => ⟨200, ApiBody.testKeyBody valid status data⟩
  | KeyFetchOutcome.failure m => ⟨500, ApiBody.errBody m⟩

/-- src/server.js lines 130-138: one run of the hourly cleanup. The
for-loop walks the rate-limit entries and deletes each session older
than the one-hour cutoff from both Maps. -/
def reaperRun (st : ServerState) (now : Nat) : ServerState :=
  st.requestTimes.foldl (reaperStep (now - 3600000)) st

end SrvA

namespace SrvB

/-- MODEL in src/unnamed/part_000. -/
def MODEL : String := "nvidia/nemotron-nano-9b-v2:free"

/-- SYSTEM_PROMPT in src/unnamed/part_000 (two lines; shorter than the
src/server.js prompt). -/
def SYSTEM_PROMPT : String :=
  "You are a helpful, friendly, and knowledgeable AI assistant. \nYou provide clear, concise, and accurate responses. You\x27re conversational but professional."

/-- The fixed system instruction message seeded at index 0. -/
def systemMessage : Message := ⟨"system", SYSTEM_PROMPT⟩

/-- src/unnamed/part_000 lines 48-90: the body of the chat handler after
the rate check. Differences from src/server.js: a non-ok upstream status
is answered directly with the upstream status and the raw body text; a
missing or falsy completion text is replaced by a placeholder reply that
is still pushed as the assistant message and returned with status 200. -/
def chatAccepted (st : ServerState) (msg sessionId : String) (now : Nat)
    (fetchResult : FetchOutcome) (nowIso : String) : HttpResponse × ServerState :=
  let hist1 := updatedHistory systemMessage st sessionId msg
  let st2 : ServerState :=
    ⟨mapSet sessionId hist1 st.conversationHistories,
     mapSet sessionId now st.requestTimes⟩
  match fetchResult with
  | FetchOutcome.netErr emsg => (⟨500, ApiBody.errBody emsg⟩, st2)
  | FetchOutcome.success resp =>
    if resp.ok = false then
      (⟨resp.status, ApiBody.errBody resp.text⟩, st2)
    else
      match resp.parsed with
      | none => (⟨500, ApiBody.errBody resp.parseErrMsg⟩, st2)
      | some d =>
        let reply := jsOrStr d.content "No response from model."
        (⟨200, ApiBody.chatBody reply MODEL nowIso⟩,
         ⟨mapSet sessionId (hist1 ++ [⟨"assistant", reply⟩]) st.conversationHistories,
          mapSet sessionId now st.requestTimes⟩)

/-- src/unnamed/part_000 lines 41-46: the rate check (fixed 429 text). -/
def chatRateChecked (st : ServerState) (msg sessionId : String) (now : Nat)
    (fetchResult : FetchOutcome) (nowIso : String) : HttpResponse × ServerState :=
  let last := (mapLookup sessionId st.requestTimes).getD 0
  if now - last < MIN_REQUEST_INTERVAL then
    (⟨429, ApiBody.errBody "Please wait 1s between messages."⟩, st)
  else
    chatAccepted st msg sessionId now fetchResult nowIso

/-- src/unnamed/part_000 lines 35-91: the chat endpoint. -/
def chatHandler (st : ServerState) (message : Option String) (sessionId : String)
    (now : Nat) (fetchResult : FetchOutcome) (nowIso : String) :
    HttpResponse × ServerState :=
  if jsTruthy message = false then
    (⟨400, ApiBody.errBody "Message is required"⟩, st)
  else
    chatRateChecked st (message.getD "") sessionId now fetchResult nowIso

/-- src/unnamed/part_000 lines 94-99: the clear endpoint. -/
def clearHandler (st : ServerState) (sessionId : String) : HttpResponse × ServerState :=
  (⟨200, ApiBody.clearBody "Conversation cleared"⟩,
   ⟨mapDelete sessionId st.conversationHistories,
    mapDelete sessionId st.requestTimes⟩)

/-- src/unnamed/part_000 lines 101-109: the health endpoint (different
body shape from src/server.js: extra message field, and the redacted
key is sent under another field name). -/
def healthHandler (apiKeyCfg : Option String) : HttpResponse :=
  ⟨200, ApiBody.healthB "ok" "Chatbot is running" MODEL (jsTruthy apiKeyCfg) (redactKey apiKeyCfg)⟩

/-- src/unnamed/part_000 lines 111-121: the test-key endpoint. -/
def testKeyHandler : KeyFetchOutcome → HttpResponse
  | KeyFetchOutcome.success valid status data => ⟨200, ApiBody.testKeyBody valid status data⟩
  | KeyFetchOutcome.failure m => ⟨500, ApiBody.errBody m⟩

/-- src/unnamed/part_000 lines 124-132: one run of the hourly cleanup. -/
def reaperRun (st : ServerState) (now : Nat) : ServerState :=
  st.requestTimes.foldl (reaperStep (now - 3600000)) st

end SrvB

/-- The state-changing operations of one server variant, as used by the
reachability relation below. -/
structure ServiceOps where
  chat : ServerState → Option String → String → Nat → FetchOutcome → String → HttpResponse × ServerState
  clear : ServerState → String → HttpResponse × ServerState
  reap : ServerState → Nat → ServerState

/-- The operations of src/server.js. -/
def SrvA.ops : ServiceOps := ⟨SrvA.chatHandler, SrvA.clearHandler, SrvA.reaperRun⟩

/-- The operations of src/unnamed/part_000. -/
def SrvB.ops : ServiceOps := ⟨SrvB.chatHandler, SrvB.clearHandler, SrvB.reaperRun⟩

/-- States reachable from process start by any sequence of chat
requests, clear requests and cleanup runs (the only state-mutating
events of either server; the health and test-key routes do not touch
the Maps). -/
inductive Reachable (ops : ServiceOps) : ServerState → Prop where
  | init : Reachable ops emptyState
  | chat (st : ServerState) (message : Option String) (sessionId : String)
      (now : Nat) (fr : FetchOutcome) (nowIso : String) :
      Reachable ops st → Reachable ops (ops.chat st message sessionId now fr nowIso).2
  | clear (st : ServerState) (sessionId : String) :
      Reachable ops st → Reachable ops (ops.clear st sessionId).2
  | reap (st : ServerState) (now : Nat) :
      Reachable ops st → Reachable ops (ops.reap st now)

/-- An invariant that holds initially and is preserved by every event
holds in every reachable state. -/
theorem reachable_inv (ops : ServiceOps) (inv : ServerState → Prop)
    (h0 : inv emptyState)
    (hchat : ∀ st m s n f i, inv st → inv (ops.chat st m s n f i).2)
    (hclear : ∀ st s, inv st → inv (ops.clear st s).2)
    (hreap : ∀ st n, inv st → inv (ops.reap st n)) :
    ∀ st, Reachable ops st → inv st := by
  intro st h
  induction h with
  | init => exact h0
  | chat st m s n f i _ ih => exact hchat st m s n f i ih
  | clear st s _ ih => exact hclear st s ih
  | reap st n _ ih => exact hreap st n ih

/-- Looking up the key just set yields the new value. -/
theorem mapLookup_set_self (k : String) (v : α) (m : List (String × α)) :
    mapLookup k (mapSet k v m) = some v := by
  induction m with
  | nil => simp [mapSet, mapLookup]
  | cons e rest ih =>
    by_cases h : e.1 = k
    · simp [mapSet, mapLookup, h]
    · simpa [mapSet, mapLookup, h] using ih

/-- Setting one key does not change lookups at other keys. -/
theorem mapLookup_set_ne (k k2 : String) (v : α) (m : List (String × α))
    (h : k2 ≠ k) : mapLookup k2 (mapSet k v m) = mapLookup k2 m := by
  induction m with
  | nil => simp [mapSet, mapLookup, Ne.symm h]
  | cons e rest ih =>
    by_cases he : e.1 = k
    · have h2 : ¬ (e.1 = k2) := by rw [he]; exact Ne.symm h
      simp [mapSet, mapLookup, he, Ne.symm h, h2]
    · by_cases he2 : e.1 = k2
      · simp [mapSet, mapLookup, he, he2, h]
      · simp [mapSet, mapLookup, he, he2, ih]

/-- Looking up the key just deleted yields nothing. -/
theorem mapLookup_delete_self (k : String) (m : List (String × α)) :
    mapLookup k (mapDelete k m) = none := by
  induction m with
  | nil => rfl
  | cons e rest ih =>
    by_cases h : e.1 = k
    · simpa [mapDelete, List.filter_cons, h] using ih
    · simpa [mapDelete, List.filter_cons, h, mapLookup] using ih

/-- Deleting one key does not change lookups at other keys. -/
theorem mapLookup_delete_ne (k k2 : String) (m : List (String × α))
    (h : k2 ≠ k) : mapLookup k2 (mapDelete k m) = mapLookup k2 m := by
  induction m with
  | nil => rfl
  | cons e rest ih =>
    by_cases he : e.1 = k
    · have h2 : ¬ (e.1 = k2) := by rw [he]; exact Ne.symm h
      simpa [mapDelete, List.filter_cons, he, mapLookup, h2, Ne.symm h] using ih
    · by_cases he2 : e.1 = k2
      · simp [mapDelete, List.filter_cons, he, mapLookup, he2, h]
      · simpa [mapDelete, List.filter_cons, he, mapLookup, he2] using ih

/-- The trimmed history has exactly 21 entries when the input exceeded
21, and is unchanged otherwise. -/
theorem trimHistory_length (h : List Message) :
    (trimHistory h).length = if 21 < h.length then 21 else h.length := by
  unfold trimHistory
  by_cases hl : 21 < h.length
  · rw [if_pos hl, if_pos hl]
    cases h with
    | nil => simp at hl
    | cons m rest =>
      simp only [List.length_cons, List.length_drop]
      simp only [List.length_cons] at hl
      omega
  · rw [if_neg hl, if_neg hl]

/-- Trimming keeps the first element. -/
theorem trimHistory_head (h : List Message) :
    (trimHistory h).head? = h.head? := by
  unfold trimHistory
  by_cases hl : 21 < h.length
  · rw [if_pos hl]
    cases h with
    | nil => rfl
    | cons m rest => rfl
  · rw [if_neg hl]

/-- When the history exceeds 21 entries, trimming keeps exactly element
0 followed by the last 20 elements, in their original order. -/
theorem trimHistory_eq_take_append_drop (h : List Message) (hl : 21 < h.length) :
    trimHistory h = h.take 1 ++ h.drop (h.length - 20) := by
  unfold trimHistory
  rw [if_pos hl]
  cases h with
  | nil => simp at hl
  | cons m rest =>
    simp only [List.length_cons] at hl ⊢
    have h1 : rest.length + 1 - 21 = rest.length - 20 := by omega
    have h2 : rest.length + 1 - 20 = (rest.length - 20) + 1 := by omega
    rw [h1, h2]
    simp [List.take_succ_cons, List.take_zero, List.drop_succ_cons]

/-- Trimming a history that ends in a given message yields a history
that still ends in that message. -/
theorem trimHistory_append_last (pre : List Message) (m : Message) :
    ∃ pre2, trimHistory (pre ++ [m]) = pre2 ++ [m] := by
  by_cases hl : 21 < (pre ++ [m]).length
  · refine ⟨(pre ++ [m]).take 1 ++ pre.drop ((pre ++ [m]).length - 20), ?_⟩
    rw [trimHistory_eq_take_append_drop _ hl, List.append_assoc]
    congr 1
    rw [List.drop_append_of_le_length]
    simp only [List.length_append, List.length_cons, List.length_nil] at hl ⊢
    omega
  · exact ⟨pre, by unfold trimHistory; rw [if_neg hl]⟩

/-- The user-appended history is never longer than 21 entries, provided
every stored history has at most 22 entries. -/
theorem updatedHistory_length (sys : Message) (st : ServerState) (sid msg : String)
    (hb : ∀ h, mapLookup sid st.conversationHistories = some h → h.length ≤ 22) :
    (updatedHistory sys st sid msg).length ≤ 21 := by
  unfold updatedHistory
  rw [trimHistory_length]
  cases hc : mapLookup sid st.conversationHistories with
  | none => simp
  | some h0 =>
    have := hb h0 hc
    simp only [List.length_append, List.length_cons, List.length_nil]
    split <;> omega

/-- The user-appended history still starts with the fixed system
message, provided every stored history does. -/
theorem updatedHistory_head (sys : Message) (st : ServerState) (sid msg : String)
    (hh : ∀ h, mapLookup sid st.conversationHistories = some h → h.head? = some sys) :
    (updatedHistory sys st sid msg).head? = some sys := by
  unfold updatedHistory
  rw [trimHistory_head]
  cases hc : mapLookup sid st.conversationHistories with
  | none => rfl
  | some h0 =>
    have h1 := hh h0 hc
    cases h0 with
    | nil => simp at h1
    | cons m rest =>
      simp only [List.head?_cons, Option.some.injEq] at h1
      simp [h1]

/-- The user-appended history ends with the user message just pushed. -/
theorem updatedHistory_getLast (sys : Message) (st : ServerState) (sid msg : String) :
    (updatedHistory sys st sid msg).getLast? = some ⟨"user", msg⟩ := by
  unfold updatedHistory
  obtain ⟨pre2, hp⟩ := trimHistory_append_last
    (match mapLookup sid st.conversationHistories with
     | some h => h
     | none => [sys]) ⟨"user", msg⟩
  rw [hp, List.getLast?_concat]

namespace SrvA

/-- The state produced by an accepted chat request in src/server.js:
requestTimes is stamped with now, and the session history becomes the
user-appended history, with the assistant reply appended after it on
the success path. -/
theorem chatAcceptedA_state (st : ServerState) (msg sid : String) (now : Nat)
    (fr : FetchOutcome) (iso : String) :
    ∃ hist,
      (chatAccepted st msg sid now fr iso).2 =
        ⟨mapSet sid hist st.conversationHistories, mapSet sid now st.requestTimes⟩ ∧
      (hist = updatedHistory systemMessage st sid msg ∨
       ∃ r, hist = updatedHistory systemMessage st sid msg ++ [⟨"assistant", r⟩]) := by
  unfold chatAccepted
  cases fr with
  | netErr e => exact ⟨_, rfl, Or.inl rfl⟩
  | success resp =>
    by_cases hok : resp.ok = false
    · simp only [hok, if_true]
      exact ⟨_, rfl, Or.inl rfl⟩
    · simp only [hok, if_false]
      cases resp.parsed with
      | none => exact ⟨_, rfl, Or.inl rfl⟩
      | some d =>
        by_cases hc : jsTruthy d.content = true
        · simp only [hc, if_true]
          exact ⟨_, rfl, Or.inr ⟨_, rfl⟩⟩
        · simp only [hc, if_false]
          exact ⟨_, rfl, Or.inl rfl⟩

/-- A chat request either leaves the state unchanged (validation or
rate-limit rejection) or produces the accepted-request state. -/
theorem chatHandlerA_state (st : ServerState) (message : Option String) (sid : String)
    (now : Nat) (fr : FetchOutcome) (iso : String) :
    (chatHandler st message sid now fr iso).2 = st ∨
    (chatHandler st message sid now fr iso).2 =
      (chatAccepted st (message.getD "") sid now fr iso).2 := by
  unfold chatHandler chatRateChecked
  by_cases hm : jsTruthy message = false
  · simp [hm]
  · simp only [hm, if_false]
    by_cases hr : now - (mapLookup sid st.requestTimes).getD 0 < MIN_REQUEST_INTERVAL
    · simp [hr]
    · simp [hr]

end SrvA

namespace SrvB

/-- The state produced by an accepted chat request in
src/unnamed/part_000, in the same shape as for src/server.js. -/
theorem chatAcceptedB_state (st : ServerState) (msg sid : String) (now : Nat)
    (fr : FetchOutcome) (iso : String) :
    ∃ hist,
      (chatAccepted st msg sid now fr iso).2 =
        ⟨mapSet sid hist st.conversationHistories, mapSet sid now st.requestTimes⟩ ∧
      (hist = updatedHistory systemMessage st sid msg ∨
       ∃ r, hist = updatedHistory systemMessage st sid msg ++ [⟨"assistant", r⟩]) := by
  unfold chatAccepted
  cases fr with
  | netErr e => exact ⟨_, rfl, Or.inl rfl⟩
  | success resp =>
    by_cases hok : resp.ok = false
    · simp only [hok, if_true]
      exact ⟨_, rfl, Or.inl rfl⟩
    · simp only [hok, if_false]
      cases resp.parsed with
      | none => exact ⟨_, rfl, Or.inl rfl⟩
      | some d => exact ⟨_, rfl, Or.inr ⟨_, rfl⟩⟩

/-- A chat request either leaves the state unchanged (validation or
rate-limit rejection) or produces the accepted-request state. -/
theorem chatHandlerB_state (st : ServerState) (message : Option String) (sid : String)
    (now : Nat) (fr : FetchOutcome) (iso : String) :
    (chatHandler st message sid now fr iso).2 = st ∨
    (chatHandler st message sid now fr iso).2 =
      (chatAccepted st (message.getD "") sid now fr iso).2 := by
  unfold chatHandler chatRateChecked
  by_cases hm : jsTruthy message = false
  · simp [hm]
  · simp only [hm, if_false]
    by_cases hr : now - (mapLookup sid st.requestTimes).getD 0 < MIN_REQUEST_INTERVAL
    · simp [hr]
    · simp [hr]

end SrvB

/-- Whether the cleanup loop deletes a given session id: some entry in
the iterated rate-limit list carries that id with a timestamp below the
cutoff. -/
def staleIn (cutoff : Nat) (sid : String) (l : List (String × Nat)) : Bool :=
  l.any (fun e => decide (e.1 = sid) && decide (e.2 < cutoff))


/-- Unfolding of the stale test over a cons cell. -/
theorem staleIn_cons (cutoff : Nat) (sid : String) (e : String × Nat)
    (rest : List (String × Nat)) :
    staleIn cutoff sid (e :: rest) =
      ((decide (e.1 = sid) && decide (e.2 < cutoff)) || staleIn cutoff sid rest) := by
  simp [staleIn, List.any_cons]

/-- A key that does not occur in the association list looks up to none. -/
theorem mapLookup_eq_none_of_not_mem (k : String) (l : List (String × α))
    (h : k ∉ l.map Prod.fst) : mapLookup k l = none := by
  induction l with
  | nil => rfl
  | cons e rest ih =>
    simp only [List.map_cons, List.mem_cons, not_or] at h
    have he : ¬ (e.1 = k) := fun he => h.1 he.symm
    simp [mapLookup, he, ih h.2]

/-- A session with no rate-limit entry is never marked stale. -/
theorem staleIn_of_lookup_none (l : List (String × Nat)) (sid : String)
    (hl : mapLookup sid l = none) (cutoff : Nat) :
    staleIn cutoff sid l = false := by
  induction l with
  | nil => rfl
  | cons e rest ih =>
    by_cases hs : e.1 = sid
    · simp [mapLookup, hs] at hl
    · have hl2 : mapLookup sid rest = none := by simpa [mapLookup, hs] using hl
      rw [staleIn_cons, ih hl2]
      simp [hs]

/-- What one cleanup run does to the lookups of an arbitrary session:
the session vanishes from both Maps exactly when some iterated entry
marks it stale, and is untouched otherwise. Stated over the fold with an
arbitrary starting accumulator so that it can be proved by induction on
the iterated list. -/
theorem reapFold_lookup (cutoff : Nat) (l : List (String × Nat)) (st : ServerState)
    (sid : String) :
    mapLookup sid (l.foldl (reaperStep cutoff) st).requestTimes =
      (if staleIn cutoff sid l then none else mapLookup sid st.requestTimes) ∧
    mapLookup sid (l.foldl (reaperStep cutoff) st).conversationHistories =
      (if staleIn cutoff sid l then none else mapLookup sid st.conversationHistories) := by
  induction l generalizing st with
  | nil => simp [staleIn]
  | cons e rest ih =>
    rw [List.foldl_cons, staleIn_cons]
    obtain ⟨ih1, ih2⟩ := ih (reaperStep cutoff st e)
    by_cases ht : e.2 < cutoff
    · by_cases hs : e.1 = sid
      · simp only [hs, ht, decide_True, Bool.and_self, Bool.true_or, if_true]
        constructor
        · rw [ih1]
          by_cases h2 : staleIn cutoff sid rest
          · simp [h2]
          · simp [h2, reaperStep, ht, hs, mapLookup_delete_self]
        · rw [ih2]
          by_cases h2 : staleIn cutoff sid rest
          · simp [h2]
          · simp [h2, reaperStep, ht, hs, mapLookup_delete_self]
      · simp only [hs, decide_False, Bool.false_and, Bool.false_or]
        have hrt : (reaperStep cutoff st e).requestTimes = mapDelete e.1 st.requestTimes := by
          simp [reaperStep, ht]
        have hch : (reaperStep cutoff st e).conversationHistories =
            mapDelete e.1 st.conversationHistories := by
          simp [reaperStep, ht]
        constructor
        · rw [ih1, hrt, mapLookup_delete_ne _ _ _ (fun h => hs h.symm)]
        · rw [ih2, hch, mapLookup_delete_ne _ _ _ (fun h => hs h.symm)]
    · have hstep : reaperStep cutoff st e = st := by simp [reaperStep, ht]
      simp only [ht, decide_False, Bool.and_false, Bool.false_or]
      rw [hstep]
      exact ih st

/-- When the rate-limit keys are unique (as for a JavaScript Map), the
stale test for a stored session reduces to comparing its stored
timestamp with the cutoff. -/
theorem staleIn_of_lookup (l : List (String × Nat)) (sid : String) (t : Nat)
    (hnd : (l.map Prod.fst).Nodup) (hl : mapLookup sid l = some t) (cutoff : Nat) :
    staleIn cutoff sid l = decide (t < cutoff) := by
  induction l with
  | nil => simp [mapLookup] at hl
  | cons e rest ih =>
    simp only [List.map_cons, List.nodup_cons] at hnd
    rw [staleIn_cons]
    by_cases hs : e.1 = sid
    · have ht : e.2 = t := by
        simp [mapLookup, hs] at hl
        exact hl
      have hnone : mapLookup sid rest = none := by
        apply mapLookup_eq_none_of_not_mem
        rw [← hs]
        exact hnd.1
      rw [staleIn_of_lookup_none rest sid hnone cutoff, hs, ht]
      simp
    · have hl2 : mapLookup sid rest = some t := by
        simpa [mapLookup, hs] using hl
      rw [ih hnd.2 hl2]
      simp [hs]

/-- Deleting a key twice equals deleting it once. -/
theorem mapDelete_idem (k : String) (m : List (String × α)) :
    mapDelete k (mapDelete k m) = mapDelete k m := by
  unfold mapDelete
  rw [List.filter_filter]
  congr 1
  funext p
  simp

/-- C9: a chat request whose message text is missing or empty is
answered with the 400 validation error and nothing else happens (the
state comes back unchanged); a request with a non-empty message text
passes the validation check and proceeds to the rate check. Both
variants behave identically here. -/
theorem C9_validation (st : ServerState) (sid : String) (now : Nat)
    (fr : FetchOutcome) (iso : String) :
    (SrvA.chatHandler st none sid now fr iso =
       (⟨400, ApiBody.errBody "Message is required"⟩, st)) ∧
    (SrvA.chatHandler st (some "") sid now fr iso =
       (⟨400, ApiBody.errBody "Message is required"⟩, st)) ∧
    (SrvB.chatHandler st none sid now fr iso =
       (⟨400, ApiBody.errBody "Message is required"⟩, st)) ∧
    (SrvB.chatHandler st (some "") sid now fr iso =
       (⟨400, ApiBody.errBody "Message is required"⟩, st)) ∧
    (∀ msg : String, msg ≠ "" →
       SrvA.chatHandler st (some msg) sid now fr iso =
         SrvA.chatRateChecked st msg sid now fr iso ∧
       SrvB.chatHandler st (some msg) sid now fr iso =
         SrvB.chatRateChecked st msg sid now fr iso) := by
  refine ⟨rfl, rfl, rfl, rfl, ?_⟩
  intro msg hmsg
  constructor
  · unfold SrvA.chatHandler
    simp [jsTruthy, hmsg]
  · unfold SrvB.chatHandler
    simp [jsTruthy, hmsg]

/-- Witness for C9 at concrete inputs. -/
theorem C9_validation_witness :
    SrvA.chatHandler emptyState none "default" 0 (FetchOutcome.netErr "x") "t" =
      (⟨400, ApiBody.errBody "Message is required"⟩, emptyState) ∧
    SrvA.chatHandler emptyState (some "hi") "default" 0 (FetchOutcome.netErr "x") "t" =
      SrvA.chatRateChecked emptyState "hi" "default" 0 (FetchOutcome.netErr "x") "t" :=
  ⟨(C9_validation emptyState "default" 0 (FetchOutcome.netErr "x") "t").1,
   ((C9_validation emptyState "default" 0 (FetchOutcome.netErr "x") "t").2.2.2.2 "hi"
      (by decide)).1⟩

/-- C2: a chat request for a session arriving less than 1000 ms after
the stored last-accepted timestamp is answered 429, and the state
(transcript and rate-limit timestamp alike) comes back unchanged; in
both variants. -/
theorem C2_rate_limited (st : ServerState) (msg sid : String) (now t : Nat)
    (fr : FetchOutcome) (iso : String) (hmsg : msg ≠ "")
    (hstored : mapLookup sid st.requestTimes = some t)
    (hlt : now - t < 1000) :
    (SrvA.chatHandler st (some msg) sid now fr iso).1.status = 429 ∧
    (SrvA.chatHandler st (some msg) sid now fr iso).2 = st ∧
    (SrvB.chatHandler st (some msg) sid now fr iso).1.status = 429 ∧
    (SrvB.chatHandler st (some msg) sid now fr iso).2 = st := by
  have h1 : now - (mapLookup sid st.requestTimes).getD 0 < MIN_REQUEST_INTERVAL := by
    rw [hstored]; exact hlt
  refine ⟨?_, ?_, ?_, ?_⟩
  · unfold SrvA.chatHandler SrvA.chatRateChecked
    simp [jsTruthy, hmsg, h1]
  · unfold SrvA.chatHandler SrvA.chatRateChecked
    simp [jsTruthy, hmsg, h1]
  · unfold SrvB.chatHandler SrvB.chatRateChecked
    simp [jsTruthy, hmsg, h1]
  · unfold SrvB.chatHandler SrvB.chatRateChecked
    simp [jsTruthy, hmsg, h1]

/-- Witness for C2: a stored timestamp of 500 and a request at 900. -/
theorem C2_rate_limited_witness :
    (SrvA.chatHandler ⟨[], [("s", 500)]⟩ (some "hi") "s" 900 (FetchOutcome.netErr "x") "t").1.status = 429 ∧
    (SrvB.chatHandler ⟨[], [("s", 500)]⟩ (some "hi") "s" 900 (FetchOutcome.netErr "x") "t").2 = ⟨[], [("s", 500)]⟩ := by
  have h := C2_rate_limited ⟨[], [("s", 500)]⟩ "hi" "s" 900 500 (FetchOutcome.netErr "x") "t"
    (by decide) (by decide) (by decide)
  exact ⟨h.1, h.2.2.2⟩

/-- C8: clearing a session answers the fixed acknowledgement, removes
the session transcript and rate-limit entry (with no error when they
are absent, since deletion of an absent key is a no-op), leaves every
other session untouched, and is idempotent; the part_000 handler is the
same function as the server.js one. -/
theorem C8_clear (st : ServerState) (sid : String) :
    (SrvA.clearHandler st sid).1 = ⟨200, ApiBody.clearBody "Conversation cleared"⟩ ∧
    mapLookup sid (SrvA.clearHandler st sid).2.conversationHistories = none ∧
    mapLookup sid (SrvA.clearHandler st sid).2.requestTimes = none ∧
    (∀ sid2, sid2 ≠ sid →
       mapLookup sid2 (SrvA.clearHandler st sid).2.conversationHistories =
         mapLookup sid2 st.conversationHistories ∧
       mapLookup sid2 (SrvA.clearHandler st sid).2.requestTimes =
         mapLookup sid2 st.requestTimes) ∧
    SrvA.clearHandler (SrvA.clearHandler st sid).2 sid = SrvA.clearHandler st sid ∧
    SrvB.clearHandler st sid = SrvA.clearHandler st sid := by
  refine ⟨rfl, mapLookup_delete_self sid _, mapLookup_delete_self sid _, ?_, ?_, rfl⟩
  · intro sid2 h
    exact ⟨mapLookup_delete_ne sid sid2 _ h, mapLookup_delete_ne sid sid2 _ h⟩
  · unfold SrvA.clearHandler
    simp [mapDelete_idem]

/-- Witness for C8: clearing session a removes it and keeps session b. -/
theorem C8_clear_witness :
    mapLookup "a" (SrvA.clearHandler ⟨[("a", [⟨"system", "p"⟩])], [("a", 1), ("b", 2)]⟩ "a").2.requestTimes = none ∧
    mapLookup "b" (SrvA.clearHandler ⟨[("a", [⟨"system", "p"⟩])], [("a", 1), ("b", 2)]⟩ "a").2.requestTimes = some 2 := by
  have h := C8_clear ⟨[("a", [⟨"system", "p"⟩])], [("a", 1), ("b", 2)]⟩ "a"
  refine ⟨h.2.2.1, ?_⟩
  rw [(h.2.2.2.1 "b" (by decide)).2]
  decide

/-- C6: an accepted chat request stamps the session rate-limit
timestamp with the current time for every fetch outcome (the stamp is
written before the upstream call, so a failed call still consumes the
slot), and a rejected request leaves the rate state unchanged; in both
variants. -/
theorem C6_timestamp (st : ServerState) (msg sid : String) (now : Nat)
    (fr : FetchOutcome) (iso : String) (hmsg : msg ≠ "") :
    (¬ now - (mapLookup sid st.requestTimes).getD 0 < 1000 →
       mapLookup sid (SrvA.chatHandler st (some msg) sid now fr iso).2.requestTimes = some now ∧
       mapLookup sid (SrvB.chatHandler st (some msg) sid now fr iso).2.requestTimes = some now) ∧
    (now - (mapLookup sid st.requestTimes).getD 0 < 1000 →
       (SrvA.chatHandler st (some msg) sid now fr iso).2.requestTimes = st.requestTimes ∧
       (SrvB.chatHandler st (some msg) sid now fr iso).2.requestTimes = st.requestTimes) := by
  constructor
  · intro hr
    have hA : SrvA.chatHandler st (some msg) sid now fr iso =
        SrvA.chatAccepted st msg sid now fr iso := by
      unfold SrvA.chatHandler SrvA.chatRateChecked
      simp [jsTruthy, hmsg, MIN_REQUEST_INTERVAL, hr]
    have hB : SrvB.chatHandler st (some msg) sid now fr iso =
        SrvB.chatAccepted st msg sid now fr iso := by
      unfold SrvB.chatHandler SrvB.chatRateChecked
      simp [jsTruthy, hmsg, MIN_REQUEST_INTERVAL, hr]
    obtain ⟨histA, heqA, -⟩ := SrvA.chatAcceptedA_state st msg sid now fr iso
    obtain ⟨histB, heqB, -⟩ := SrvB.chatAcceptedB_state st msg sid now fr iso
    rw [hA, heqA, hB, heqB]
    exact ⟨mapLookup_set_self sid now _, mapLookup_set_self sid now _⟩
  · intro hr
    have hA : (SrvA.chatHandler st (some msg) sid now fr iso).2 = st := by
      unfold SrvA.chatHandler SrvA.chatRateChecked
      simp [jsTruthy, hmsg, MIN_REQUEST_INTERVAL, hr]
    have hB : (SrvB.chatHandler st (some msg) sid now fr iso).2 = st := by
      unfold SrvB.chatHandler SrvB.chatRateChecked
      simp [jsTruthy, hmsg, MIN_REQUEST_INTERVAL, hr]
    rw [hA, hB]
    exact ⟨rfl, rfl⟩

/-- Witness for C6: an accepted request whose upstream call fails with
status 500 still gets its timestamp recorded. -/
theorem C6_timestamp_witness :
    mapLookup "s" (SrvA.chatHandler emptyState (some "hi") "s" 1000
      (FetchOutcome.success ⟨500, "oops", none, "pe"⟩) "t").2.requestTimes = some 1000 := by
  have h := C6_timestamp emptyState "hi" "s" 1000
    (FetchOutcome.success ⟨500, "oops", none, "pe"⟩) "t" (by decide)
  exact (h.1 (by decide)).1

/-- C4 (amended): on an accepted request, every upstream failure mode
of src/server.js (non-success status, unparseable payload, missing or
empty completion text) is answered with a 500 error body, no assistant
message is appended, and the already-appended user message remains: the
stored transcript is exactly the user-appended history, whose last
entry is the user message. src/unnamed/part_000 guarantees the same
for a non-success status (answering with the upstream status and raw
body). It does NOT satisfy the claim for a parseable payload missing
the completion text; see the counterexample. -/
theorem C4_upstream_failure (st : ServerState) (msg sid : String) (now : Nat)
    (iso : String) (resp : UpstreamResponse) (hmsg : msg ≠ "")
    (hrate : ¬ now - (mapLookup sid st.requestTimes).getD 0 < 1000) :
    ((resp.ok = false ∨ resp.parsed = none ∨
        (∀ d, resp.parsed = some d → jsTruthy d.content = false)) →
      (SrvA.chatHandler st (some msg) sid now (FetchOutcome.success resp) iso).1.status = 500 ∧
      (∃ e, (SrvA.chatHandler st (some msg) sid now (FetchOutcome.success resp) iso).1.body =
          ApiBody.errBody e) ∧
      mapLookup sid (SrvA.chatHandler st (some msg) sid now
          (FetchOutcome.success resp) iso).2.conversationHistories =
        some (updatedHistory SrvA.systemMessage st sid msg) ∧
      (updatedHistory SrvA.systemMessage st sid msg).getLast? = some ⟨"user", msg⟩) ∧
    (resp.ok = false →
      (SrvB.chatHandler st (some msg) sid now (FetchOutcome.success resp) iso).1 =
        ⟨resp.status, ApiBody.errBody resp.text⟩ ∧
      mapLookup sid (SrvB.chatHandler st (some msg) sid now
          (FetchOutcome.success resp) iso).2.conversationHistories =
        some (updatedHistory SrvB.systemMessage st sid msg) ∧
      (updatedHistory SrvB.systemMessage st sid msg).getLast? = some ⟨"user", msg⟩) := by
  have hA : SrvA.chatHandler st (some msg) sid now (FetchOutcome.success resp) iso =
      SrvA.chatAccepted st msg sid now (FetchOutcome.success resp) iso := by
    unfold SrvA.chatHandler SrvA.chatRateChecked
    simp [jsTruthy, hmsg, MIN_REQUEST_INTERVAL, hrate]
  have hB : SrvB.chatHandler st (some msg) sid now (FetchOutcome.success resp) iso =
      SrvB.chatAccepted st msg sid now (FetchOutcome.success resp) iso := by
    unfold SrvB.chatHandler SrvB.chatRateChecked
    simp [jsTruthy, hmsg, MIN_REQUEST_INTERVAL, hrate]
  constructor
  · intro hf
    rw [hA]
    unfold SrvA.chatAccepted
    dsimp only
    by_cases hok : resp.ok = false
    · rw [if_pos hok]
      exact ⟨rfl, ⟨_, rfl⟩, mapLookup_set_self sid _ _, updatedHistory_getLast _ _ _ _⟩
    · rw [if_neg hok]
      cases hp : resp.parsed with
      | none =>
        exact ⟨rfl, ⟨_, rfl⟩, mapLookup_set_self sid _ _, updatedHistory_getLast _ _ _ _⟩
      | some d =>
        have hcf : jsTruthy d.content = false := by
          rcases hf with h | h | h
          · exact absurd h hok
          · rw [hp] at h; exact absurd h (by simp)
          · exact h d hp
        dsimp only
        rw [if_neg (by simp [hcf])]
        exact ⟨rfl, ⟨_, rfl⟩, mapLookup_set_self sid _ _, updatedHistory_getLast _ _ _ _⟩
  · intro hok
    rw [hB]
    unfold SrvB.chatAccepted
    dsimp only
    rw [if_pos hok]
    exact ⟨rfl, mapLookup_set_self sid _ _, updatedHistory_getLast _ _ _ _⟩

/-- Witness for C4 at a concrete upstream 404 failure. -/
theorem C4_upstream_failure_witness :
    (SrvA.chatHandler emptyState (some "hi") "s" 1000
       (FetchOutcome.success ⟨404, "nf", none, "pe"⟩) "t").1.status = 500 ∧
    (SrvB.chatHandler emptyState (some "hi") "s" 1000
       (FetchOutcome.success ⟨404, "nf", none, "pe"⟩) "t").1 =
      ⟨404, ApiBody.errBody "nf"⟩ := by
  have h := C4_upstream_failure emptyState "hi" "s" 1000 "t" ⟨404, "nf", none, "pe"⟩
    (by decide) (by decide)
  exact ⟨(h.1 (Or.inl (by decide))).1, (h.2 (by decide)).1⟩

/-- C4 counterexample: with a parseable upstream payload that lacks the
completion text, src/unnamed/part_000 answers with status 200 (not an
error) and appends a fabricated assistant message to the transcript. -/
theorem C4_counterexample :
    (SrvB.chatHandler emptyState (some "hi") "s" 1000
       (FetchOutcome.success ⟨200, "x", some ⟨none, none, none⟩, ""⟩) "t").1.status = 200 ∧
    mapLookup "s" (SrvB.chatHandler emptyState (some "hi") "s" 1000
       (FetchOutcome.success ⟨200, "x", some ⟨none, none, none⟩, ""⟩) "t").2.conversationHistories =
      some [SrvB.systemMessage, ⟨"user", "hi"⟩, ⟨"assistant", "No response from model."⟩] :=
  ⟨rfl, rfl⟩

/-- C5 (amended): when an accepted chat request fails because the
upstream returned a non-success status, src/server.js always answers
500 with an error body, never propagating the upstream status code,
while src/unnamed/part_000 answers with the upstream status code and
the raw body text; a transport failure is answered 500 by both. -/
theorem C5_upstream_status (st : ServerState) (msg sid : String) (now : Nat)
    (iso : String) (resp : UpstreamResponse) (hmsg : msg ≠ "")
    (hrate : ¬ now - (mapLookup sid st.requestTimes).getD 0 < 1000)
    (hok : resp.ok = false) :
    (SrvA.chatHandler st (some msg) sid now (FetchOutcome.success resp) iso).1.status = 500 ∧
    (∃ e, (SrvA.chatHandler st (some msg) sid now (FetchOutcome.success resp) iso).1.body =
        ApiBody.errBody e) ∧
    (SrvB.chatHandler st (some msg) sid now (FetchOutcome.success resp) iso).1 =
      ⟨resp.status, ApiBody.errBody resp.text⟩ ∧
    (∀ e, (SrvA.chatHandler st (some msg) sid now (FetchOutcome.netErr e) iso).1 =
        ⟨500, ApiBody.errBody e⟩ ∧
      (SrvB.chatHandler st (some msg) sid now (FetchOutcome.netErr e) iso).1 =
        ⟨500, ApiBody.errBody e⟩) := by
  have hAf : ∀ fr, SrvA.chatHandler st (some msg) sid now fr iso =
      SrvA.chatAccepted st msg sid now fr iso := by
    intro fr
    unfold SrvA.chatHandler SrvA.chatRateChecked
    simp [jsTruthy, hmsg, MIN_REQUEST_INTERVAL, hrate]
  have hBf : ∀ fr, SrvB.chatHandler st (some msg) sid now fr iso =
      SrvB.chatAccepted st msg sid now fr iso := by
    intro fr
    unfold SrvB.chatHandler SrvB.chatRateChecked
    simp [jsTruthy, hmsg, MIN_REQUEST_INTERVAL, hrate]
  refine ⟨?_, ?_, ?_, ?_⟩
  · rw [hAf]
    unfold SrvA.chatAccepted
    dsimp only
    rw [if_pos hok]
  · rw [hAf]
    unfold SrvA.chatAccepted
    dsimp only
    rw [if_pos hok]
    exact ⟨_, rfl⟩
  · rw [hBf]
    unfold SrvB.chatAccepted
    dsimp only
    rw [if_pos hok]
  · intro e
    rw [hAf, hBf]
    exact ⟨rfl, rfl⟩

/-- Witness for C5 at a concrete upstream 404 failure. -/
theorem C5_upstream_status_witness :
    (SrvA.chatHandler emptyState (some "m") "s" 2000
       (FetchOutcome.success ⟨404, "missing", none, "pe"⟩) "t").1.status = 500 ∧
    (SrvB.chatHandler emptyState (some "m") "s" 2000
       (FetchOutcome.success ⟨404, "missing", none, "pe"⟩) "t").1 =
      ⟨404, ApiBody.errBody "missing"⟩ := by
  have h := C5_upstream_status emptyState "m" "s" 2000 "t" ⟨404, "missing", none, "pe"⟩
    (by decide) (by decide) (by decide)
  exact ⟨h.1, h.2.2.1⟩

/-- C5 counterexample: the upstream status 404 is available, yet
src/server.js answers 500, not 404. -/
theorem C5_counterexample :
    (UpstreamResponse.mk 404 "nf" none "pe").ok = false ∧
    (SrvA.chatHandler emptyState (some "hi") "s" 1000
       (FetchOutcome.success ⟨404, "nf", none, "pe"⟩) "t").1.status = 500 ∧
    (500 : Nat) ≠ (UpstreamResponse.mk 404 "nf" none "pe").status :=
  ⟨rfl, rfl, by decide⟩

/-- C7: one cleanup run deletes exactly the sessions whose stored
last-request timestamp is older than the one-hour cutoff, removing both
the rate-limit entry and the transcript of each such session, and
leaves the lookups of every other session unchanged; in both variants.
The hypothesis that the rate-limit keys are unique reflects the
JavaScript Map they embed. -/
theorem C7_reaper (st : ServerState) (now : Nat) (sid : String)
    (hnd : (st.requestTimes.map Prod.fst).Nodup) :
    (∀ t, mapLookup sid st.requestTimes = some t → t < now - 3600000 →
       mapLookup sid (SrvA.reaperRun st now).requestTimes = none ∧
       mapLookup sid (SrvA.reaperRun st now).conversationHistories = none ∧
       mapLookup sid (SrvB.reaperRun st now).requestTimes = none ∧
       mapLookup sid (SrvB.reaperRun st now).conversationHistories = none) ∧
    (∀ t, mapLookup sid st.requestTimes = some t → ¬ t < now - 3600000 →
       mapLookup sid (SrvA.reaperRun st now).requestTimes = some t ∧
       mapLookup sid (SrvA.reaperRun st now).conversationHistories =
         mapLookup sid st.conversationHistories ∧
       mapLookup sid (SrvB.reaperRun st now).requestTimes = some t ∧
       mapLookup sid (SrvB.reaperRun st now).conversationHistories =
         mapLookup sid st.conversationHistories) ∧
    (mapLookup sid st.requestTimes = none →
       mapLookup sid (SrvA.reaperRun st now).requestTimes = none ∧
       mapLookup sid (SrvA.reaperRun st now).conversationHistories =
         mapLookup sid st.conversationHistories ∧
       mapLookup sid (SrvB.reaperRun st now).conversationHistories =
         mapLookup sid st.conversationHistories) := by
  obtain ⟨h1, h2⟩ := reapFold_lookup (now - 3600000) st.requestTimes st sid
  refine ⟨?_, ?_, ?_⟩
  · intro t hl ht
    have hs : staleIn (now - 3600000) sid st.requestTimes = true := by
      rw [staleIn_of_lookup st.requestTimes sid t hnd hl]
      simpa using ht
    refine ⟨?_, ?_, ?_, ?_⟩
    · unfold SrvA.reaperRun; rw [h1, hs]; simp
    · unfold SrvA.reaperRun; rw [h2, hs]; simp
    · unfold SrvB.reaperRun; rw [h1, hs]; simp
    · unfold SrvB.reaperRun; rw [h2, hs]; simp
  · intro t hl ht
    have hs : staleIn (now - 3600000) sid st.requestTimes = false := by
      rw [staleIn_of_lookup st.requestTimes sid t hnd hl]
      simpa using ht
    refine ⟨?_, ?_, ?_, ?_⟩
    · unfold SrvA.reaperRun; rw [h1, hs]; simpa using hl
    · unfold SrvA.reaperRun; rw [h2, hs]; simp
    · unfold SrvB.reaperRun; rw [h1, hs]; simpa using hl
    · unfold SrvB.reaperRun; rw [h2, hs]; simp
  · intro hl
    have hs : staleIn (now - 3600000) sid st.requestTimes = false :=
      staleIn_of_lookup_none st.requestTimes sid hl (now - 3600000)
    refine ⟨?_, ?_, ?_⟩
    · unfold SrvA.reaperRun; rw [h1, hs]; simpa using hl
    · unfold SrvA.reaperRun; rw [h2, hs]; simp
    · unfold SrvB.reaperRun; rw [h2, hs]; simp

/-- Witness for C7: at time 4000000 the cutoff is 400000; session a
(timestamp 100) is reaped, session b (timestamp 4000000) is kept. -/
theorem C7_reaper_witness :
    mapLookup "a" (SrvA.reaperRun ⟨[("a", [⟨"system", "p"⟩]), ("b", [⟨"system", "p"⟩])],
      [("a", 100), ("b", 4000000)]⟩ 4000000).requestTimes = none ∧
    mapLookup "b" (SrvA.reaperRun ⟨[("a", [⟨"system", "p"⟩]), ("b", [⟨"system", "p"⟩])],
      [("a", 100), ("b", 4000000)]⟩ 4000000).requestTimes = some 4000000 := by
  have ha := C7_reaper ⟨[("a", [⟨"system", "p"⟩]), ("b", [⟨"system", "p"⟩])],
    [("a", 100), ("b", 4000000)]⟩ 4000000 "a" (by decide)
  have hb := C7_reaper ⟨[("a", [⟨"system", "p"⟩]), ("b", [⟨"system", "p"⟩])],
    [("a", 100), ("b", 4000000)]⟩ 4000000 "b" (by decide)
  exact ⟨(ha.1 100 (by decide) (by decide)).1, (hb.2.1 4000000 (by decide) (by decide)).1⟩

/-- A list starting with a given element still starts with it after an
append on the right. -/
theorem head?_append_of_head? (l l2 : List Message) (a : Message)
    (h : l.head? = some a) : (l ++ l2).head? = some a := by
  cases l with
  | nil => simp at h
  | cons x xs => simpa using h

/-- The transcript invariant: every stored history has at most 22
entries and starts with the given fixed system message. -/
def transcriptInv (sys : Message) (st : ServerState) : Prop :=
  ∀ sid h, mapLookup sid st.conversationHistories = some h →
    h.length ≤ 22 ∧ h.head? = some sys

/-- The invariant holds at process start. -/
theorem transcriptInv_empty (sys : Message) : transcriptInv sys emptyState := by
  intro sid h hl
  simp [emptyState, mapLookup] at hl

/-- Storing a history that satisfies the bounds preserves the
invariant. -/
theorem transcriptInv_set (sys : Message) (st : ServerState) (sid : String)
    (now : Nat) (hist : List Message) (hinv : transcriptInv sys st)
    (hlen : hist.length ≤ 22) (hhead : hist.head? = some sys) :
    transcriptInv sys
      ⟨mapSet sid hist st.conversationHistories, mapSet sid now st.requestTimes⟩ := by
  intro sid2 h hl
  by_cases he : sid2 = sid
  · subst he
    rw [mapLookup_set_self] at hl
    injection hl with hh
    subst hh
    exact ⟨hlen, hhead⟩
  · rw [mapLookup_set_ne sid sid2 _ _ he] at hl
    exact hinv sid2 h hl

/-- Clearing a session preserves the invariant. -/
theorem transcriptInv_clear (sys : Message) (st : ServerState) (sid : String)
    (hinv : transcriptInv sys st) :
    transcriptInv sys
      ⟨mapDelete sid st.conversationHistories, mapDelete sid st.requestTimes⟩ := by
  intro sid2 h hl
  by_cases he : sid2 = sid
  · subst he
    rw [mapLookup_delete_self] at hl
    simp at hl
  · rw [mapLookup_delete_ne sid sid2 _ he] at hl
    exact hinv sid2 h hl

/-- A cleanup run preserves the invariant: it only removes histories. -/
theorem transcriptInv_reap (sys : Message) (st : ServerState) (now : Nat)
    (hinv : transcriptInv sys st) :
    transcriptInv sys (st.requestTimes.foldl (reaperStep (now - 3600000)) st) := by
  intro sid2 h hl
  obtain ⟨-, h2⟩ := reapFold_lookup (now - 3600000) st.requestTimes st sid2
  rw [h2] at hl
  by_cases hs : staleIn (now - 3600000) sid2 st.requestTimes = true
  · rw [if_pos hs] at hl
    simp at hl
  · rw [if_neg hs] at hl
    exact hinv sid2 h hl

/-- A chat request of src/server.js preserves the transcript invariant. -/
theorem transcriptInvA_chat (st : ServerState) (m : Option String) (s : String)
    (n : Nat) (f : FetchOutcome) (i : String)
    (hinv : transcriptInv SrvA.systemMessage st) :
    transcriptInv SrvA.systemMessage (SrvA.chatHandler st m s n f i).2 := by
  rcases SrvA.chatHandlerA_state st m s n f i with heq | heq
  · rw [heq]; exact hinv
  · rw [heq]
    obtain ⟨hist, heq2, hcase⟩ := SrvA.chatAcceptedA_state st (m.getD "") s n f i
    rw [heq2]
    have hulen := updatedHistory_length SrvA.systemMessage st s (m.getD "")
      (fun h hl => (hinv s h hl).1)
    have huhead := updatedHistory_head SrvA.systemMessage st s (m.getD "")
      (fun h hl => (hinv s h hl).2)
    rcases hcase with hh | ⟨r, hh⟩
    · subst hh
      exact transcriptInv_set _ _ _ _ _ hinv (by omega) huhead
    · subst hh
      refine transcriptInv_set _ _ _ _ _ hinv ?_ ?_
      · rw [List.length_append]
        simp only [List.length_cons, List.length_nil]
        omega
      · exact head?_append_of_head? _ _ _ huhead

/-- A chat request of src/unnamed/part_000 preserves the transcript
invariant. -/
theorem transcriptInvB_chat (st : ServerState) (m : Option String) (s : String)
    (n : Nat) (f : FetchOutcome) (i : String)
    (hinv : transcriptInv SrvB.systemMessage st) :
    transcriptInv SrvB.systemMessage (SrvB.chatHandler st m s n f i).2 := by
  rcases SrvB.chatHandlerB_state st m s n f i with heq | heq
  · rw [heq]; exact hinv
  · rw [heq]
    obtain ⟨hist, heq2, hcase⟩ := SrvB.chatAcceptedB_state st (m.getD "") s n f i
    rw [heq2]
    have hulen := updatedHistory_length SrvB.systemMessage st s (m.getD "")
      (fun h hl => (hinv s h hl).1)
    have huhead := updatedHistory_head SrvB.systemMessage st s (m.getD "")
      (fun h hl => (hinv s h hl).2)
    rcases hcase with hh | ⟨r, hh⟩
    · subst hh
      exact transcriptInv_set _ _ _ _ _ hinv (by omega) huhead
    · subst hh
      refine transcriptInv_set _ _ _ _ _ hinv ?_ ?_
      · rw [List.length_append]
        simp only [List.length_cons, List.length_nil]
        omega
      · exact head?_append_of_head? _ _ _ huhead

/-- C1 (amended): in every reachable state of either variant, every
stored transcript has length at most 22 and starts with the fixed
system message of the variant. The original bound of 21 is too strong:
the user-push trim caps the transcript at 21, with eviction keeping
exactly element 0 and the last 20 messages in their original order
(third conjunct), but the assistant reply is pushed after the trim, so
a successful turn on a full transcript leaves 22 entries; see the
counterexample. -/
theorem C1_transcript_invariant :
    (∀ st, Reachable SrvA.ops st → ∀ sid h,
       mapLookup sid st.conversationHistories = some h →
       h.length ≤ 22 ∧ h.head? = some SrvA.systemMessage) ∧
    (∀ st, Reachable SrvB.ops st → ∀ sid h,
       mapLookup sid st.conversationHistories = some h →
       h.length ≤ 22 ∧ h.head? = some SrvB.systemMessage) ∧
    (∀ h : List Message, 21 < h.length →
       trimHistory h = h.take 1 ++ h.drop (h.length - 20)) := by
  refine ⟨?_, ?_, trimHistory_eq_take_append_drop⟩
  · intro st hr
    exact reachable_inv SrvA.ops (transcriptInv SrvA.systemMessage)
      (transcriptInv_empty _)
      (fun st m s n f i hi => transcriptInvA_chat st m s n f i hi)
      (fun st s hi => transcriptInv_clear _ st s hi)
      (fun st n hi => transcriptInv_reap _ st n hi)
      st hr
  · intro st hr
    exact reachable_inv SrvB.ops (transcriptInv SrvB.systemMessage)
      (transcriptInv_empty _)
      (fun st m s n f i hi => transcriptInvB_chat st m s n f i hi)
      (fun st s hi => transcriptInv_clear _ st s hi)
      (fun st n hi => transcriptInv_reap _ st n hi)
      st hr

/-- A successful upstream exchange used to build concrete runs. -/
def goodFetch : FetchOutcome :=
  FetchOutcome.success ⟨200, "ok", some ⟨none, none, some "hello"⟩, ""⟩

/-- One chat turn of src/server.js on the default session at time
1000 times k. -/
def chatStepA (st : ServerState) (k : Nat) : ServerState :=
  (SrvA.ops.chat st (some "hi") "default" (1000 * k) goodFetch "t").2

/-- Each such turn preserves reachability. -/
theorem chatStepA_reachable (st : ServerState) (k : Nat)
    (h : Reachable SrvA.ops st) : Reachable SrvA.ops (chatStepA st k) :=
  Reachable.chat st (some "hi") "default" (1000 * k) goodFetch "t" h

/-- The state after eleven successful chat turns on the default
session, one second apart. -/
def elevenTurnState : ServerState :=
  chatStepA (chatStepA (chatStepA (chatStepA (chatStepA (chatStepA (chatStepA
    (chatStepA (chatStepA (chatStepA (chatStepA emptyState 1) 2) 3) 4) 5) 6) 7)
    8) 9) 10) 11

/-- C1 counterexample: a reachable state of src/server.js whose default
transcript holds 22 messages, exceeding the claimed bound of 21. -/
theorem C1_counterexample :
    Reachable SrvA.ops elevenTurnState ∧
    ((mapLookup "default" elevenTurnState.conversationHistories).getD []).length = 22 := by
  constructor
  · exact chatStepA_reachable _ 11 (chatStepA_reachable _ 10 (chatStepA_reachable _ 9
      (chatStepA_reachable _ 8 (chatStepA_reachable _ 7 (chatStepA_reachable _ 6
      (chatStepA_reachable _ 5 (chatStepA_reachable _ 4 (chatStepA_reachable _ 3
      (chatStepA_reachable _ 2 (chatStepA_reachable _ 1 Reachable.init))))))))))
  · decide

set_option maxRecDepth 10000 in
/-- Witness for C1 at the state after one turn. -/
theorem C1_transcript_invariant_witness :
    ([SrvA.systemMessage, ⟨"user", "hi"⟩, ⟨"assistant", "hello"⟩] : List Message).length ≤ 22 ∧
    ([SrvA.systemMessage, ⟨"user", "hi"⟩, ⟨"assistant", "hello"⟩] : List Message).head? =
      some SrvA.systemMessage :=
  (C1_transcript_invariant).1 (chatStepA emptyState 1)
    (chatStepA_reachable emptyState 1 Reachable.init) "default"
    [SrvA.systemMessage, ⟨"user", "hi"⟩, ⟨"assistant", "hello"⟩] (by decide)

/-- The pairing invariant: every session with a stored transcript also
has a stored rate-limit timestamp. -/
def pairedInv (st : ServerState) : Prop :=
  ∀ sid, (mapLookup sid st.conversationHistories).isSome = true →
    (mapLookup sid st.requestTimes).isSome = true

/-- The pairing invariant holds at process start. -/
theorem pairedInv_empty : pairedInv emptyState := by
  intro sid h
  simp [emptyState, mapLookup] at h

/-- Writing a history and a timestamp for the same session preserves
the pairing invariant. -/
theorem pairedInv_set (st : ServerState) (sid : String) (now : Nat)
    (hist : List Message) (hinv : pairedInv st) :
    pairedInv
      ⟨mapSet sid hist st.conversationHistories, mapSet sid now st.requestTimes⟩ := by
  intro sid2 h
  by_cases he : sid2 = sid
  · subst he
    rw [mapLookup_set_self]
    rfl
  · rw [mapLookup_set_ne sid sid2 _ _ he] at h
    rw [mapLookup_set_ne sid sid2 _ _ he]
    exact hinv sid2 h

/-- Deleting both entries of one session preserves the pairing
invariant. -/
theorem pairedInv_clear (st : ServerState) (sid : String) (hinv : pairedInv st) :
    pairedInv
      ⟨mapDelete sid st.conversationHistories, mapDelete sid st.requestTimes⟩ := by
  intro sid2 h
  by_cases he : sid2 = sid
  · subst he
    rw [mapLookup_delete_self] at h
    simp at h
  · rw [mapLookup_delete_ne sid sid2 _ he] at h
    rw [mapLookup_delete_ne sid sid2 _ he]
    exact hinv sid2 h

/-- A cleanup run preserves the pairing invariant: it deletes from both
Maps together. -/
theorem pairedInv_reap (st : ServerState) (now : Nat) (hinv : pairedInv st) :
    pairedInv (st.requestTimes.foldl (reaperStep (now - 3600000)) st) := by
  intro sid2 h
  obtain ⟨h1, h2⟩ := reapFold_lookup (now - 3600000) st.requestTimes st sid2
  rw [h2] at h
  rw [h1]
  by_cases hs : staleIn (now - 3600000) sid2 st.requestTimes = true
  · rw [if_pos hs] at h
    simp at h
  · rw [if_neg hs] at h ⊢
    exact hinv sid2 h

/-- A chat request of src/server.js preserves the pairing invariant. -/
theorem pairedInvA_chat (st : ServerState) (m : Option String) (s : String)
    (n : Nat) (f : FetchOutcome) (i : String) (hinv : pairedInv st) :
    pairedInv (SrvA.chatHandler st m s n f i).2 := by
  rcases SrvA.chatHandlerA_state st m s n f i with heq | heq
  · rw [heq]; exact hinv
  · rw [heq]
    obtain ⟨hist, heq2, -⟩ := SrvA.chatAcceptedA_state st (m.getD "") s n f i
    rw [heq2]
    exact pairedInv_set st s n hist hinv

/-- A chat request of src/unnamed/part_000 preserves the pairing
invariant. -/
theorem pairedInvB_chat (st : ServerState) (m : Option String) (s : String)
    (n : Nat) (f : FetchOutcome) (i : String) (hinv : pairedInv st) :
    pairedInv (SrvB.chatHandler st m s n f i).2 := by
  rcases SrvB.chatHandlerB_state st m s n f i with heq | heq
  · rw [heq]; exact hinv
  · rw [heq]
    obtain ⟨hist, heq2, -⟩ := SrvB.chatAcceptedB_state st (m.getD "") s n f i
    rw [heq2]
    exact pairedInv_set st s n hist hinv

/-- C10: in every reachable state of either variant, every session id
with a stored transcript also has a stored rate-limit timestamp: the
chat handler writes the timestamp on the same acceptance that creates
or updates the transcript, and the clear route and the cleanup delete
the transcript together with the timestamp entry, so no transcript can
outlive its rate-limit entry and escape the cleanup. -/
theorem C10_paired (st : ServerState)
    (hr : Reachable SrvA.ops st ∨ Reachable SrvB.ops st) :
    ∀ sid, (mapLookup sid st.conversationHistories).isSome = true →
      (mapLookup sid st.requestTimes).isSome = true := by
  rcases hr with hr | hr
  · exact reachable_inv SrvA.ops pairedInv pairedInv_empty
      (fun st m s n f i hi => pairedInvA_chat st m s n f i hi)
      (fun st s hi => pairedInv_clear st s hi)
      (fun st n hi => pairedInv_reap st n hi) st hr
  · exact reachable_inv SrvB.ops pairedInv pairedInv_empty
      (fun st m s n f i hi => pairedInvB_chat st m s n f i hi)
      (fun st s hi => pairedInv_clear st s hi)
      (fun st n hi => pairedInv_reap st n hi) st hr

/-- Witness for C10 at the state after one turn. -/
theorem C10_paired_witness :
    (mapLookup "default" (chatStepA emptyState 1).requestTimes).isSome = true :=
  C10_paired (chatStepA emptyState 1)
    (Or.inl (chatStepA_reachable emptyState 1 Reachable.init)) "default" (by decide)

/-- C3 counterexample: the same chat request with the same initial
state and the same upstream behaviour (a parseable payload lacking the
completion text) is answered with a 500 error by src/server.js but
with a 200 success by src/unnamed/part_000, and the two health bodies
have different shapes: the two files do not produce the same response
on every request. -/
theorem C3_counterexample :
    (SrvA.chatHandler emptyState (some "hi") "s" 1000
       (FetchOutcome.success ⟨200, "x", some ⟨none, none, none⟩, ""⟩) "t").1 ≠
    (SrvB.chatHandler emptyState (some "hi") "s" 1000
       (FetchOutcome.success ⟨200, "x", some ⟨none, none, none⟩, ""⟩) "t").1 ∧
    SrvA.healthHandler none ≠ SrvB.healthHandler none :=
  ⟨by decide, by decide⟩

/-- C3 (amended): the clear, test-key and cleanup operations of the two
files are the same function of the state; the chat handlers agree on
the validation rejection, on the 429 status of a rate-limited request,
and on the full response of a successful exchange whose completion
text is present. They differ elsewhere: system prompt (hence transcript
contents), 429 message text, upstream-failure handling, missing
completion handling, and health body shape; see the counterexample. -/
theorem C3_partial_equivalence :
    (∀ st sid, SrvA.clearHandler st sid = SrvB.clearHandler st sid) ∧
    (∀ o, SrvA.testKeyHandler o = SrvB.testKeyHandler o) ∧
    (∀ st now, SrvA.reaperRun st now = SrvB.reaperRun st now) ∧
    (∀ st sid now fr iso,
       SrvA.chatHandler st none sid now fr iso =
         SrvB.chatHandler st none sid now fr iso) ∧
    (∀ st msg sid now t fr iso, msg ≠ "" →
       mapLookup sid st.requestTimes = some t → now - t < 1000 →
       (SrvA.chatHandler st (some msg) sid now fr iso).1.status = 429 ∧
       (SrvB.chatHandler st (some msg) sid now fr iso).1.status = 429) ∧
    (∀ st msg sid now resp iso d c, msg ≠ "" →
       ¬ now - (mapLookup sid st.requestTimes).getD 0 < 1000 →
       resp.ok = true → resp.parsed = some d → d.content = some c → c ≠ "" →
       (SrvA.chatHandler st (some msg) sid now (FetchOutcome.success resp) iso).1 =
         (SrvB.chatHandler st (some msg) sid now (FetchOutcome.success resp) iso).1 ∧
       (SrvA.chatHandler st (some msg) sid now (FetchOutcome.success resp) iso).1 =
         ⟨200, ApiBody.chatBody c SrvA.MODEL iso⟩) := by
  refine ⟨fun st sid => rfl, ?_, fun st now => rfl, fun st sid now fr iso => rfl, ?_, ?_⟩
  · intro o
    cases o <;> rfl
  · intro st msg sid now t fr iso hmsg hstored hlt
    have h1 : now - (mapLookup sid st.requestTimes).getD 0 < MIN_REQUEST_INTERVAL := by
      rw [hstored]; exact hlt
    constructor
    · unfold SrvA.chatHandler SrvA.chatRateChecked
      simp [jsTruthy, hmsg, h1]
    · unfold SrvB.chatHandler SrvB.chatRateChecked
      simp [jsTruthy, hmsg, h1]
  · intro st msg sid now resp iso d c hmsg hrate hok hp hc hcn
    have hA : SrvA.chatHandler st (some msg) sid now (FetchOutcome.success resp) iso =
        SrvA.chatAccepted st msg sid now (FetchOutcome.success resp) iso := by
      unfold SrvA.chatHandler SrvA.chatRateChecked
      simp [jsTruthy, hmsg, MIN_REQUEST_INTERVAL, hrate]
    have hB : SrvB.chatHandler st (some msg) sid now (FetchOutcome.success resp) iso =
        SrvB.chatAccepted st msg sid now (FetchOutcome.success resp) iso := by
      unfold SrvB.chatHandler SrvB.chatRateChecked
      simp [jsTruthy, hmsg, MIN_REQUEST_INTERVAL, hrate]
    have hAr : (SrvA.chatAccepted st msg sid now (FetchOutcome.success resp) iso).1 =
        ⟨200, ApiBody.chatBody c SrvA.MODEL iso⟩ := by
      unfold SrvA.chatAccepted
      dsimp only
      rw [if_neg (by simp [hok]), hp]
      dsimp only
      rw [hc]
      rw [if_pos (by simp [jsTruthy, hcn])]
      rfl
    have hBr : (SrvB.chatAccepted st msg sid now (FetchOutcome.success resp) iso).1 =
        ⟨200, ApiBody.chatBody c SrvB.MODEL iso⟩ := by
      unfold SrvB.chatAccepted
      dsimp only
      rw [if_neg (by simp [hok]), hp]
      dsimp only
      rw [hc]
      have hj : jsOrStr (some c) "No response from model." = c := by
        simp [jsOrStr, hcn]
      rw [hj]
    rw [hA, hB, hAr, hBr]
    exact ⟨rfl, rfl⟩

/-- Witness for C3 at concrete inputs: clear agrees, and a successful
exchange with completion text hello produces identical responses. -/
theorem C3_partial_equivalence_witness :
    SrvA.clearHandler emptyState "s" = SrvB.clearHandler emptyState "s" ∧
    (SrvA.chatHandler emptyState (some "hi") "s" 1000
       (FetchOutcome.success ⟨200, "x", some ⟨none, none, some "hello"⟩, ""⟩) "t").1 =
      (SrvB.chatHandler emptyState (some "hi") "s" 1000
       (FetchOutcome.success ⟨200, "x", some ⟨none, none, some "hello"⟩, ""⟩) "t").1 :=
  ⟨C3_partial_equivalence.1 emptyState "s",
   (C3_partial_equivalence.2.2.2.2.2 emptyState "hi" "s" 1000
      ⟨200, "x", some ⟨none, none, some "hello"⟩, ""⟩ "t" ⟨none, none, some "hello"⟩
      "hello" (by decide) (by decide) (by decide) rfl rfl (by decide)).1⟩
